import Mathlib

/-!
Shallow embedding of the dyns dynamic-DNS updater (src/main.rs).

HTTP calls are modelled by oracles: each network interaction is a value the
environment supplies (the response the transport would have produced), and the
embedded functions compute exactly what the Rust code computes from that
response.  A Rust `panic!`/`expect` is modelled as a distinguished `Outcome`
constructor, separate from `anyhow` error values, because the two abort the
process by different mechanisms (no `Err` is ever constructed on a panic).
-/

set_option autoImplicit false

namespace Dyns

/-- `struct Record { name, proxy }` from main.rs. -/
structure Record where
  name : String
  proxy : Bool
deriving DecidableEq

/-- `struct ZoneConfig { zone_id, name, records }` from main.rs. -/
structure ZoneConfig where
  zone_id : String
  name : String
  records : List Record
deriving DecidableEq

/-- `struct Config { email, auth_key, authorization, zones }` from main.rs
(the optional `log_file` only feeds the logger and is omitted). -/
structure Config where
  email : String
  auth_key : String
  authorization : String
  zones : List ZoneConfig
deriving DecidableEq

/-- `struct RecordInfo { id, name }` from main.rs. -/
structure RecordInfo where
  id : String
  name : String
deriving DecidableEq

/-- `struct CloudflareResponse { success, errors, messages, result }` from main.rs. -/
structure CloudflareResponse where
  success : Bool
  errors : List String
  messages : List String
  result : List RecordInfo
deriving DecidableEq

/-- `struct UpdateRecordBody { content, proxy }` from main.rs: the JSON body of
the PATCH request. -/
structure UpdateRecordBody where
  content : String
  proxy : Bool
deriving DecidableEq

/-- A PATCH request as sent by `update_record`: the URL names the zone and the
resolved record id, the body carries content and proxy flag. -/
structure PatchRequest where
  zone_id : String
  record_id : String
  body : UpdateRecordBody
deriving DecidableEq

/-- The error taxonomy.  Each variant corresponds to one construction site of an
`anyhow::Error` in main.rs (the code itself carries strings; the variant records
which site produced it and the data interpolated there). -/
inductive Error where
  /-- transport-level failure surfaced by `?` on `client.send`/`client.get` -/
  | network (msg : String)
  /-- `.text()` failure in `get_current_ip`, surfaced by `?` -/
  | responseError (msg : String)
  /-- `anyhow::bail!("Failed to get DNS record ID: {:?}", body.errors)` -/
  | providerError (errors : List String)
  /-- `anyhow!("Did not find any DNS record with name {}", name)` -/
  | notFound (name : String)
  /-- `anyhow::bail!("No zones specified")` -/
  | configError (msg : String)
deriving DecidableEq

/-- Result of running a piece of the Rust code: a value, a propagated
`anyhow::Error`, or a `panic!`/`expect` abort (which never constructs an
error value). -/
inductive Outcome (α : Type) where
  | ok (val : α)
  | err (e : Error)
  | panic (msg : String)
deriving DecidableEq

/-- `true` iff the outcome is a propagated error value. -/
def Outcome.isErr {α : Type} : Outcome α → Bool
  | .err _ => true
  | _ => false

/-- `true` iff the outcome is a panic. -/
def Outcome.isPanic {α : Type} : Outcome α → Bool
  | .panic _ => true
  | _ => false

/-- What the transport returns for the GET on
`.../zones/{zone_id}/dns_records`: a transport error (`client.send` fails), a
body that `response.json()` cannot parse, or a parsed envelope. -/
inductive ListResponse where
  | transportError (msg : String)
  | unparseable
  | parsed (body : CloudflareResponse)
deriving DecidableEq

/-- What the transport returns for the PATCH on
`.../zones/{zone_id}/dns_records/{record_id}`: a transport error, or a
completed exchange.  The completed case carries the response envelope, which
the code never reads. -/
inductive PatchResult where
  | transportError (msg : String)
  | completed (envelope : CloudflareResponse)
deriving DecidableEq

/-- What the transport returns for the GET on `https://api.ipify.org/`:
a transport error (`client.get` fails), a body that `.text()` cannot decode,
or the body text. -/
inductive IpResponse where
  | transportError (msg : String)
  | readError (msg : String)
  | body (text : String)
deriving DecidableEq

/-- `fn get_dns_record_id` from main.rs.  The `client`, `cfg` and `zone_id`
arguments only shape the HTTP request; the request's result is the `resp`
oracle value, so they are not parameters here.  Mirrors the source:
`response.json().expect("Failed to parse response")` (a panic on an
unparseable body), then the `!body.success` bail, then
`body.result.into_iter().find(|info| info.name == name).map(|info| info.id)
.ok_or(anyhow!(...))`. -/
def get_dns_record_id (resp : ListResponse) (name : String) : Outcome String :=
  match resp with
  | .transportError m => .err (.network m)
  | .unparseable => .panic "Failed to parse response"
  | .parsed body =>
    if !body.success then
      .err (.providerError body.errors)
    else
      match body.result.find? (fun info => info.name == name) with
      | some info => .ok info.id
      | none => .err (.notFound name)

/-- `fn update_record` from main.rs: resolve the record id (propagating its
error with `?`), then PATCH.  The second component is the PATCH request the
code sends, `none` when the id resolution failed (no PATCH is attempted).
The PATCH response envelope is never inspected: a completed exchange is
success. -/
def update_record (listResp : ListResponse) (patchResp : PatchResult)
    (zone_id : String) (record : Record) (ip : String) :
    Outcome Unit × Option PatchRequest :=
  match get_dns_record_id listResp record.name with
  | .err e => (.err e, none)
  | .panic m => (.panic m, none)
  | .ok record_id =>
    let req : PatchRequest := ⟨zone_id, record_id, ⟨ip, record.proxy⟩⟩
    match patchResp with
    | .transportError m => (.err (.network m), some req)
    | .completed _ => (.ok (), some req)

/-- Rust's `str::trim` as called in `get_current_ip`: drop leading and
trailing whitespace.  Written over the character list because Lean's built-in
`String.trim` is defined by byte-position recursion that the kernel cannot
evaluate; this is the same function, with `Char.isWhitespace` as the
whitespace class. -/
def rustTrim (s : String) : String :=
  ⟨((s.data.dropWhile Char.isWhitespace).reverse.dropWhile Char.isWhitespace).reverse⟩

/-- `fn get_current_ip` from main.rs: GET the IP-echo endpoint (the
`.context(...)` annotates the transport error), read the body as text
(propagating a read failure with `?`), and trim surrounding whitespace.
No emptiness or syntax check is performed. -/
def get_current_ip (resp : IpResponse) : Outcome String :=
  match resp with
  | .transportError m => .err (.network ("Failed to get new IP address: " ++ m))
  | .readError m => .err (.responseError m)
  | .body t => .ok (rustTrim t)

/-- The startup validation in `main`:
`if cfg.zones.len() == 0 { anyhow::bail!("No zones specified"); }`.
It runs before the HTTP client is created, so before any network call. -/
def checkZones (cfg : Config) : Outcome Unit :=
  if cfg.zones.length == 0 then .err (.configError "No zones specified") else .ok ()

/-- One `log::error!` emission from `main`'s update loop.  The format string is
`"An error happened while updating record {} of zone {}: {}"`; `recordSlot` is
what fills the first placeholder and `zoneSlot` the second, exactly as the
arguments are passed at the call site. -/
structure ErrorLog where
  recordSlot : String
  zoneSlot : String
  error : Error
deriving DecidableEq

/-- The transport's answers for one `update_record` call: the list-records GET
and the PATCH. -/
structure CallResponses where
  listResp : ListResponse
  patchResp : PatchResult
deriving DecidableEq

/-- What one reconciliation pass (the nested `for` loops in `main`) produces:
its outcome, the `update_record` invocations made (zone id paired with record
name, in call order), the PATCH requests actually sent, the error-log entries
emitted, and the next unused index into the call oracle. -/
structure PassOut where
  outcome : Outcome Unit
  calls : List (String × String)
  patches : List PatchRequest
  logs : List ErrorLog
  next : Nat
deriving DecidableEq

/-- The inner `for record in &zone.records` loop of `main`: update each record
in order; on `Err(e)` emit
`log::error!("An error happened while updating record {} of zone {}: {}",
zone.name, record.name, e)` — note the arguments: `zone.name` fills the
record placeholder and `record.name` the zone placeholder — and stop
(`return Err(e)`).  A panic stops immediately with nothing logged.
`oracle k` is the transport's answer to the `k`-th `update_record` call of
the run. -/
def runZoneRecords (oracle : Nat → CallResponses) (zone : ZoneConfig) (ip : String) :
    List Record → Nat → PassOut
  | [], k => ⟨.ok (), [], [], [], k⟩
  | r :: rs, k =>
    let ur := update_record (oracle k).listResp (oracle k).patchResp zone.zone_id r ip
    match ur.1 with
    | .ok _ =>
      let rest := runZoneRecords oracle zone ip rs (k + 1)
      ⟨rest.outcome, (zone.zone_id, r.name) :: rest.calls,
        ur.2.toList ++ rest.patches, rest.logs, rest.next⟩
    | .err e =>
      ⟨.err e, [(zone.zone_id, r.name)], ur.2.toList,
        [⟨zone.name, r.name, e⟩], k + 1⟩
    | .panic m => ⟨.panic m, [(zone.zone_id, r.name)], ur.2.toList, [], k + 1⟩

/-- The outer `for zone in &cfg.zones` loop of `main`: one full reconciliation
pass over a list of zones. -/
def runZones (oracle : Nat → CallResponses) (ip : String) :
    List ZoneConfig → Nat → PassOut
  | [], k => ⟨.ok (), [], [], [], k⟩
  | z :: zs, k =>
    let zr := runZoneRecords oracle z ip z.records k
    match zr.outcome with
    | .ok _ =>
      let rest := runZones oracle ip zs zr.next
      ⟨rest.outcome, zr.calls ++ rest.calls, zr.patches ++ rest.patches,
        zr.logs ++ rest.logs, rest.next⟩
    | _ => zr

/-- Control position of `main`'s infinite loop: about to run a reconciliation
pass, sleeping/polling, exited with `Err` (`return Err(e)` or a propagated
`?`), or aborted by a panic. -/
inductive Mode where
  | updating
  | waiting
  | aborted
  | panicked
deriving DecidableEq

/-- The whole observable state of a run of `main` after startup: the control
position, the `ip` variable, the two oracle cursors (update calls made, polls
made), and the cumulative traces — update-call descriptors, PATCH requests,
error logs, and the IPs for which a full reconciliation pass has completed
successfully. -/
structure RunState where
  mode : Mode
  ip : String
  callIdx : Nat
  pollIdx : Nat
  calls : List (String × String)
  patches : List PatchRequest
  logs : List ErrorLog
  pushed : List String
deriving DecidableEq

/-- State right after `let mut ip = get_current_ip(&mut client)?;` succeeded
with `ip₀`: the outer loop is entered, a pass is about to run. -/
def initState (ip₀ : String) : RunState :=
  ⟨.updating, ip₀, 0, 0, [], [], [], []⟩

/-- One step of `main`'s loop.  In `updating`, run the full pass: on success
enter the inner sleep loop (and record the pushed IP); on an error the process
exits with it; on a panic it aborts.  In `waiting`, sleep, poll the IP: a
failed poll propagates out of `main` via `?`; an unchanged IP stays in
`waiting` (`log::info!("IP hasn't changed, sleeping...")`); a changed IP is
stored into `ip` and the loop re-enters `updating` (`ip = new_ip; break`).
Terminal modes are absorbing. -/
def step (cfg : Config) (oracle : Nat → CallResponses) (ipOracle : Nat → IpResponse)
    (s : RunState) : RunState :=
  match s.mode with
  | .aborted => s
  | .panicked => s
  | .updating =>
    let p := runZones oracle s.ip cfg.zones s.callIdx
    match p.outcome with
    | .ok _ =>
      { s with mode := .waiting, callIdx := p.next, calls := s.calls ++ p.calls,
               patches := s.patches ++ p.patches, logs := s.logs ++ p.logs,
               pushed := s.pushed ++ [s.ip] }
    | .err _ =>
      { s with mode := .aborted, callIdx := p.next, calls := s.calls ++ p.calls,
               patches := s.patches ++ p.patches, logs := s.logs ++ p.logs }
    | .panic _ =>
      { s with mode := .panicked, callIdx := p.next, calls := s.calls ++ p.calls,
               patches := s.patches ++ p.patches, logs := s.logs ++ p.logs }
  | .waiting =>
    match get_current_ip (ipOracle s.pollIdx) with
    | .ok new_ip =>
      if new_ip ≠ s.ip then
        { s with mode := .updating, ip := new_ip, pollIdx := s.pollIdx + 1 }
      else
        { s with pollIdx := s.pollIdx + 1 }
    | .err _ => { s with mode := .aborted, pollIdx := s.pollIdx + 1 }
    | .panic _ => { s with mode := .panicked, pollIdx := s.pollIdx + 1 }

/-- The run after `n` steps from the post-startup state. -/
def runN (cfg : Config) (oracle : Nat → CallResponses) (ipOracle : Nat → IpResponse)
    (ip₀ : String) : Nat → RunState
  | 0 => initState ip₀
  | n + 1 => step cfg oracle ipOracle (runN cfg oracle ipOracle ip₀ n)

/-- The update-call descriptors of one zone, in configuration order. -/
def zoneCalls (z : ZoneConfig) : List (String × String) :=
  z.records.map (fun r => (z.zone_id, r.name))

/-- The update-call descriptors of a zone list, in configuration order. -/
def configCalls (zs : List ZoneConfig) : List (String × String) :=
  (zs.map zoneCalls).flatten

/-! ### Concrete fixtures used to evaluate the model on the spec's scenarios -/

/-- An envelope reporting success with an empty result list. -/
def envOk : CloudflareResponse := ⟨true, [], [], []⟩

/-- Transport answers for a fully successful `update_record` call: the list
GET returns one matching entry `{id := rid, name := rname}` and the PATCH
completes. -/
def okCall (rid rname : String) : CallResponses :=
  ⟨.parsed ⟨true, [], [], [⟨rid, rname⟩]⟩, .completed envOk⟩

/-- Transport answers whose list GET returns a `success := false` envelope
carrying `errs`. -/
def failCall (errs : List String) : CallResponses :=
  ⟨.parsed ⟨false, errs, [], []⟩, .completed envOk⟩

/-- Zone Z1 of the fail-fast scenario: name `zoneA`, two records. -/
def zoneA : ZoneConfig := ⟨"z1", "zoneA", [⟨"r11", false⟩, ⟨"r12", true⟩]⟩

/-- Zone Z2 of the fail-fast scenario: name `zoneB`, three records. -/
def zoneB : ZoneConfig := ⟨"z2", "zoneB", [⟨"r21", false⟩, ⟨"r22", false⟩, ⟨"r23", false⟩]⟩

/-- Two-zone configuration for the fail-fast scenario. -/
def cfgAB : Config := ⟨"user@example.com", "key", "token", [zoneA, zoneB]⟩

/-- Call oracle for the fail-fast scenario: the first three `update_record`
calls succeed, the fourth (record `r22` of `zoneB`) hits a `success := false`
envelope, later calls would succeed. -/
def oracleFail : Nat → CallResponses
  | 0 => okCall "i11" "r11"
  | 1 => okCall "i12" "r12"
  | 2 => okCall "i21" "r21"
  | 3 => failCall ["boom"]
  | _ => okCall "i23" "r23"

/-- Call oracle under which every call of the fail-fast configuration
succeeds. -/
def oracleAllOk : Nat → CallResponses
  | 0 => okCall "i11" "r11"
  | 1 => okCall "i12" "r12"
  | 2 => okCall "i21" "r21"
  | 3 => okCall "i22" "r22"
  | _ => okCall "i23" "r23"

/-- One-zone, one-record configuration for the loop scenarios. -/
def cfgOne : Config := ⟨"user@example.com", "key", "token", [⟨"z1", "zoneA", [⟨"rec1", false⟩]⟩]⟩

/-- Call oracle under which every call of `cfgOne` succeeds. -/
def oracleOne : Nat → CallResponses := fun _ => okCall "id1" "rec1"

/-- IP oracle whose every poll returns `2.2.2.2`. -/
def ipoChanged : Nat → IpResponse := fun _ => .body "2.2.2.2"

/-- IP oracle whose every poll returns `1.1.1.1`. -/
def ipoSame : Nat → IpResponse := fun _ => .body "1.1.1.1"

/-- IP oracle whose every poll fails at the transport. -/
def ipoFailing : Nat → IpResponse := fun _ => .transportError "connection refused"

/-- Configuration holding a single zone that has no records. -/
def cfgNoRecords : Config := ⟨"user@example.com", "key", "token", [⟨"z1", "zoneA", []⟩]⟩

/-- The provider record list of the lookup scenario:
`[{id: a1, name: x.example.com}, {id: a2, name: y.example.com}]`. -/
def listXY : CloudflareResponse :=
  ⟨true, [], [], [⟨"a1", "x.example.com"⟩, ⟨"a2", "y.example.com"⟩]⟩

/-! ### Helper lemmas -/

/-- `List.find?` returns the first entry of an exact-name match: any entry
whose prefix of predecessors all have different names. -/
theorem find_first_match (l1 l2 : List RecordInfo) (info : RecordInfo) (name : String)
    (hname : info.name = name) (hl1 : ∀ i ∈ l1, i.name ≠ name) :
    (l1 ++ info :: l2).find? (fun i => i.name == name) = some info := by
  induction l1 with
  | nil => simp [List.find?, hname]
  | cons a l1 ih =>
    have ha : (a.name == name) = false := by
      simpa using hl1 a (by simp)
    simp only [List.cons_append, List.find?, ha]
    exact ih (fun i hi => hl1 i (by simp [hi]))

/-- Within one zone, the update calls made are an initial segment of the
zone's records in configuration order, and the whole of it exactly when the
zone's pass succeeded. -/
theorem runZoneRecords_calls (oracle : Nat → CallResponses) (zone : ZoneConfig)
    (ip : String) (rs : List Record) (k : Nat) :
    ∃ rest, rs.map (fun r => (zone.zone_id, r.name)) =
        (runZoneRecords oracle zone ip rs k).calls ++ rest ∧
      ((runZoneRecords oracle zone ip rs k).outcome = .ok () → rest = []) := by
  induction rs generalizing k with
  | nil => exact ⟨[], rfl, fun _ => rfl⟩
  | cons r rs ih =>
    cases h : (update_record (oracle k).listResp (oracle k).patchResp zone.zone_id r ip).1 with
    | ok v =>
      obtain ⟨rest, hr, ho⟩ := ih (k + 1)
      refine ⟨rest, ?_, ?_⟩
      · simp [runZoneRecords, h, hr]
      · intro hok
        apply ho
        simpa [runZoneRecords, h] using hok
    | err e =>
      refine ⟨rs.map (fun r => (zone.zone_id, r.name)), ?_, ?_⟩ <;>
        simp [runZoneRecords, h]
    | panic m =>
      refine ⟨rs.map (fun r => (zone.zone_id, r.name)), ?_, ?_⟩ <;>
        simp [runZoneRecords, h]

/-- Across the zone list, the update calls made are an initial segment of the
configuration-order call list, and the whole of it exactly when the pass
succeeded. -/
theorem runZones_calls (oracle : Nat → CallResponses) (ip : String)
    (zs : List ZoneConfig) (k : Nat) :
    ∃ rest, configCalls zs = (runZones oracle ip zs k).calls ++ rest ∧
      ((runZones oracle ip zs k).outcome = .ok () → rest = []) := by
  induction zs generalizing k with
  | nil => exact ⟨[], rfl, fun _ => rfl⟩
  | cons z zs ih =>
    obtain ⟨rest1, hr1, ho1⟩ := runZoneRecords_calls oracle z ip z.records k
    cases h : (runZoneRecords oracle z ip z.records k).outcome with
    | ok v =>
      obtain ⟨rest2, hr2, ho2⟩ := ih (runZoneRecords oracle z ip z.records k).next
      have hrest1 : rest1 = [] := ho1 (by cases v; exact h)
      refine ⟨rest2, ?_, ?_⟩
      · have hz : zoneCalls z = (runZoneRecords oracle z ip z.records k).calls := by
          simpa [zoneCalls, hrest1] using hr1
        simp only [runZones, h, configCalls, List.map_cons, List.flatten_cons, hz,
          List.append_assoc, List.append_cancel_left_eq]
        simpa [configCalls] using hr2
      · intro hok
        apply ho2
        simpa [runZones, h] using hok
    | err e =>
      refine ⟨rest1 ++ configCalls zs, ?_, ?_⟩
      · simp [runZones, h, configCalls, zoneCalls] at hr1 ⊢
        simp [hr1, List.append_assoc]
      · intro hok
        rw [runZones] at hok
        simp [h] at hok
    | panic m =>
      refine ⟨rest1 ++ configCalls zs, ?_, ?_⟩
      · simp [runZones, h, configCalls, zoneCalls] at hr1 ⊢
        simp [hr1, List.append_assoc]
      · intro hok
        rw [runZones] at hok
        simp [h] at hok

/-- Each loop step only appends to the cumulative call trace: calls of an
earlier step stay ahead of calls of any later step. -/
theorem step_calls_mono (cfg : Config) (oracle : Nat → CallResponses)
    (ipo : Nat → IpResponse) (s : RunState) :
    ∃ more, (step cfg oracle ipo s).calls = s.calls ++ more := by
  obtain ⟨mode, ip, ci, pi, calls, patches, logs, pushed⟩ := s
  cases mode with
  | updating =>
    cases h : (runZones oracle ip cfg.zones ci).outcome with
    | ok v => exact ⟨(runZones oracle ip cfg.zones ci).calls, by simp [step, h]⟩
    | err e => exact ⟨(runZones oracle ip cfg.zones ci).calls, by simp [step, h]⟩
    | panic m => exact ⟨(runZones oracle ip cfg.zones ci).calls, by simp [step, h]⟩
  | waiting =>
    refine ⟨[], ?_⟩
    cases h : get_current_ip (ipo pi) with
    | ok new_ip => simp only [step, h]; split <;> simp
    | err e => simp [step, h]
    | panic m => simp [step, h]
  | aborted => exact ⟨[], by simp [step]⟩
  | panicked => exact ⟨[], by simp [step]⟩

/-- A zone pass that succeeds emits no error-log entry. -/
theorem runZoneRecords_ok_log (oracle : Nat → CallResponses) (zone : ZoneConfig)
    (ip : String) (rs : List Record) (k : Nat)
    (h : (runZoneRecords oracle zone ip rs k).outcome = .ok ()) :
    (runZoneRecords oracle zone ip rs k).logs = [] := by
  induction rs generalizing k with
  | nil => rfl
  | cons r rs ih =>
    cases hu : (update_record (oracle k).listResp (oracle k).patchResp zone.zone_id r ip).1 with
    | ok v =>
      simp only [runZoneRecords, hu] at h ⊢
      exact ih (k + 1) h
    | err e => simp [runZoneRecords, hu] at h
    | panic m => simp [runZoneRecords, hu] at h

/-- A zone pass that fails with an error emits exactly one error-log entry,
carrying the propagated error. -/
theorem runZoneRecords_err_log (oracle : Nat → CallResponses) (zone : ZoneConfig)
    (ip : String) (rs : List Record) (k : Nat) (e : Error)
    (h : (runZoneRecords oracle zone ip rs k).outcome = .err e) :
    (runZoneRecords oracle zone ip rs k).logs.map ErrorLog.error = [e] := by
  induction rs generalizing k with
  | nil => simp [runZoneRecords] at h
  | cons r rs ih =>
    cases hu : (update_record (oracle k).listResp (oracle k).patchResp zone.zone_id r ip).1 with
    | ok v =>
      simp only [runZoneRecords, hu] at h ⊢
      exact ih (k + 1) h
    | err e' =>
      simp only [runZoneRecords, hu, Outcome.err.injEq] at h ⊢
      simp [h]
    | panic m => simp [runZoneRecords, hu] at h

/-- A reconciliation pass that fails with an error emits exactly one
error-log entry, carrying the propagated error. -/
theorem runZones_err_log (oracle : Nat → CallResponses) (ip : String)
    (zs : List ZoneConfig) (k : Nat) (e : Error)
    (h : (runZones oracle ip zs k).outcome = .err e) :
    (runZones oracle ip zs k).logs.map ErrorLog.error = [e] := by
  induction zs generalizing k with
  | nil => simp [runZones] at h
  | cons z zs ih =>
    cases hz : (runZoneRecords oracle z ip z.records k).outcome with
    | ok v =>
      cases v
      have hlog := runZoneRecords_ok_log oracle z ip z.records k hz
      simp only [runZones, hz] at h ⊢
      simp only [hlog, List.nil_append]
      exact ih (runZoneRecords oracle z ip z.records k).next h
    | err e' =>
      simp only [runZones, hz] at h ⊢
      simp only [Outcome.err.injEq] at h
      subst h
      exact runZoneRecords_err_log oracle z ip z.records k e' hz
    | panic m => simp [runZones, hz] at h

/-- One step preserves the invariant "in the waiting state, the stored IP has
had a full successful reconciliation pass". -/
theorem step_waiting_pushed (cfg : Config) (oracle : Nat → CallResponses)
    (ipo : Nat → IpResponse) (s : RunState)
    (h : s.mode = .waiting → s.ip ∈ s.pushed) :
    (step cfg oracle ipo s).mode = .waiting →
      (step cfg oracle ipo s).ip ∈ (step cfg oracle ipo s).pushed := by
  obtain ⟨mode, ip, ci, pi, calls, patches, logs, pushed⟩ := s
  cases mode with
  | updating =>
    cases ho : (runZones oracle ip cfg.zones ci).outcome with
    | ok v => intro _; simp [step, ho]
    | err e => intro hw; simp [step, ho] at hw
    | panic m => intro hw; simp [step, ho] at hw
  | waiting =>
    cases hi : get_current_ip (ipo pi) with
    | ok new_ip =>
      simp only [step, hi]
      split
      · intro hw; simp at hw
      · intro _; exact h rfl
    | err e => intro hw; simp [step, hi] at hw
    | panic m => intro hw; simp [step, hi] at hw
  | aborted => intro hw; simp [step] at hw
  | panicked => intro hw; simp [step] at hw

/-! ### Claim theorems -/

/-- Claim C1, the code evaluated at a failing input: when the update of record
`r22` of zone `zoneB` (the second zone's second record) fails, no further
record is attempted and the process aborts with the error — but the emitted
log entry carries the zone name `zoneB` in the record placeholder and the
record name `r22` in the zone placeholder: the attribution the claim requires
is swapped, because `main` passes `zone.name, record.name` to the format
string `"An error happened while updating record {} of zone {}"`. -/
theorem error_log_swaps_zone_and_record :
    (runZones oracleFail "9.9.9.9" cfgAB.zones 0).calls =
      [("z1", "r11"), ("z1", "r12"), ("z2", "r21"), ("z2", "r22")] ∧
    (runZones oracleFail "9.9.9.9" cfgAB.zones 0).outcome =
      .err (.providerError ["boom"]) ∧
    (runZones oracleFail "9.9.9.9" cfgAB.zones 0).logs =
      [⟨"zoneB", "r22", .providerError ["boom"]⟩] ∧
    (runZones oracleFail "9.9.9.9" cfgAB.zones 0).logs.map ErrorLog.recordSlot =
      [zoneB.name] ∧
    (step cfgAB oracleFail ipoChanged (initState "9.9.9.9")).mode = Mode.aborted :=
  ⟨rfl, rfl, rfl, rfl, rfl⟩

/-- Claim C2 counterexample: after a successful first pass for `1.1.1.1` and a
poll returning `2.2.2.2`, the run already stores `2.2.2.2` in its IP state
while it is only about to run the reconciliation pass for it — the stored
value is neither the startup value nor an IP whose pass has completed
successfully. -/
theorem state_holds_unpushed_ip :
    (runN cfgOne oracleOne ipoChanged "1.1.1.1" 2).mode = Mode.updating ∧
    (runN cfgOne oracleOne ipoChanged "1.1.1.1" 2).ip = "2.2.2.2" ∧
    (runN cfgOne oracleOne ipoChanged "1.1.1.1" 2).ip ∉
      (runN cfgOne oracleOne ipoChanged "1.1.1.1" 2).pushed ∧
    (runN cfgOne oracleOne ipoChanged "1.1.1.1" 2).ip ≠ "1.1.1.1" :=
  ⟨rfl, rfl, by decide, by decide⟩

/-- Claim C2 as amended: a changed IP is stored the moment the change is
detected, before the pass for that value runs; because any pass failure
aborts the process, whenever the loop is back in the waiting state the stored
IP's reconciliation pass has completed successfully. -/
theorem waiting_implies_ip_pushed (cfg : Config) (oracle : Nat → CallResponses)
    (ipo : Nat → IpResponse) (ip₀ : String) (n : Nat) :
    (runN cfg oracle ipo ip₀ n).mode = .waiting →
      (runN cfg oracle ipo ip₀ n).ip ∈ (runN cfg oracle ipo ip₀ n).pushed := by
  induction n with
  | zero => intro h; simp [runN, initState] at h
  | succ n ih => exact step_waiting_pushed cfg oracle ipo _ ih

/-- Witness for the amended C2 at a concrete run that reaches the waiting
state. -/
theorem waiting_implies_ip_pushed_witness :
    (runN cfgOne oracleOne ipoSame "1.1.1.1" 1).mode = Mode.waiting ∧
    (runN cfgOne oracleOne ipoSame "1.1.1.1" 1).ip ∈
      (runN cfgOne oracleOne ipoSame "1.1.1.1" 1).pushed :=
  ⟨rfl, waiting_implies_ip_pushed cfgOne oracleOne ipoSame "1.1.1.1" 1 rfl⟩

/-- Claim C3 counterexample, two concrete refutations: a list-response body
that cannot be parsed makes `get_dns_record_id` panic (the `expect` on
`response.json()`), not return an error value of the taxonomy; and a failed
IP poll in the waiting loop propagates to the aborted (non-zero) exit while
writing no entry to the error-log sink — this fatal error is not logged. -/
theorem panic_and_unlogged_poll_failure :
    get_dns_record_id ListResponse.unparseable "x.example.com" =
      Outcome.panic "Failed to parse response" ∧
    (get_dns_record_id ListResponse.unparseable "x.example.com").isErr = false ∧
    (runN cfgOne oracleOne ipoFailing "1.1.1.1" 1).mode = Mode.waiting ∧
    (runN cfgOne oracleOne ipoFailing "1.1.1.1" 2).mode = Mode.aborted ∧
    (runN cfgOne oracleOne ipoFailing "1.1.1.1" 2).logs = [] :=
  ⟨rfl, rfl, rfl, rfl, rfl⟩

/-- Claim C3 as amended: `get_dns_record_id` panics exactly on an unparseable
body and otherwise surfaces every failure as an error value of the taxonomy;
an error outcome of a reconciliation pass moves the run to the aborted state
(`main` returns the error, a non-zero exit) and is logged — exactly one new
error-log entry, carrying that error; a failed IP poll in the waiting state
also aborts the run with the propagated error, but without any log entry. -/
theorem error_surfacing_classification (resp : ListResponse) (name : String)
    (cfg : Config) (oracle : Nat → CallResponses) (ipo : Nat → IpResponse)
    (s : RunState) :
    ((get_dns_record_id resp name).isPanic = true ↔ resp = ListResponse.unparseable) ∧
    (∀ e : Error, s.mode = .updating →
      (runZones oracle s.ip cfg.zones s.callIdx).outcome = .err e →
      (step cfg oracle ipo s).mode = .aborted ∧
      (step cfg oracle ipo s).logs.map ErrorLog.error =
        s.logs.map ErrorLog.error ++ [e]) ∧
    (s.mode = .waiting → (get_current_ip (ipo s.pollIdx)).isErr = true →
      (step cfg oracle ipo s).mode = .aborted ∧
      (step cfg oracle ipo s).logs = s.logs) := by
  refine ⟨?_, ?_, ?_⟩
  · cases resp with
    | transportError m => simp [get_dns_record_id, Outcome.isPanic]
    | unparseable => simp [get_dns_record_id, Outcome.isPanic]
    | parsed body =>
      cases hs : body.success with
      | false => simp [get_dns_record_id, hs, Outcome.isPanic]
      | true =>
        cases hf : body.result.find? (fun info => info.name == name) with
        | none => simp [get_dns_record_id, hs, hf, Outcome.isPanic]
        | some info => simp [get_dns_record_id, hs, hf, Outcome.isPanic]
  · intro e hm he
    obtain ⟨mode, ip, ci, pi, calls, patches, logs, pushed⟩ := s
    dsimp only at hm he ⊢
    subst hm
    have hlog := runZones_err_log oracle ip cfg.zones ci e he
    refine ⟨by simp [step, he], ?_⟩
    simp [step, he, hlog]
  · intro hm hi
    obtain ⟨mode, ip, ci, pi, calls, patches, logs, pushed⟩ := s
    dsimp only at hm hi ⊢
    subst hm
    cases hp : get_current_ip (ipo pi) with
    | ok v => rw [hp] at hi; simp [Outcome.isErr] at hi
    | err e => exact ⟨by simp [step, hp], by simp [step, hp]⟩
    | panic m => rw [hp] at hi; simp [Outcome.isErr] at hi

/-- Witness for the amended C3: the unparseable body panics; the failing
fail-fast scenario ends aborted with its provider error logged; a concrete
waiting state with a failing poll ends aborted with its logs unchanged. -/
theorem error_surfacing_classification_witness :
    (get_dns_record_id ListResponse.unparseable "x.example.com").isPanic = true ∧
    ((step cfgAB oracleFail ipoChanged (initState "9.9.9.9")).mode = Mode.aborted ∧
      (step cfgAB oracleFail ipoChanged (initState "9.9.9.9")).logs.map ErrorLog.error =
        (initState "9.9.9.9").logs.map ErrorLog.error ++
          [Error.providerError ["boom"]]) ∧
    ((step cfgOne oracleOne ipoFailing
        (runN cfgOne oracleOne ipoFailing "1.1.1.1" 1)).mode = Mode.aborted ∧
      (step cfgOne oracleOne ipoFailing
        (runN cfgOne oracleOne ipoFailing "1.1.1.1" 1)).logs =
        (runN cfgOne oracleOne ipoFailing "1.1.1.1" 1).logs) :=
  ⟨(error_surfacing_classification ListResponse.unparseable "x.example.com" cfgAB
      oracleFail ipoChanged (initState "9.9.9.9")).1.mpr rfl,
   (error_surfacing_classification ListResponse.unparseable "x.example.com" cfgAB
      oracleFail ipoChanged (initState "9.9.9.9")).2.1
      (Error.providerError ["boom"]) rfl rfl,
   (error_surfacing_classification ListResponse.unparseable "x.example.com" cfgOne
      oracleOne ipoFailing (runN cfgOne oracleOne ipoFailing "1.1.1.1" 1)).2.2
      rfl rfl⟩

/-- Claim C4 counterexample: a configuration with one zone holding zero
records passes the startup validation and its pass runs without error — a
zone with zero records is not fatal. -/
theorem empty_records_zone_accepted :
    checkZones cfgNoRecords = Outcome.ok () ∧
    (runZones oracleOne "1.2.3.4" cfgNoRecords.zones 0).outcome = Outcome.ok () ∧
    (runZones oracleOne "1.2.3.4" cfgNoRecords.zones 0).calls = [] :=
  ⟨rfl, rfl, rfl⟩

/-- Claim C4 as amended: the startup validation (which precedes any network
call) is fatal exactly when the configuration has zero zones; a zone with
zero records is accepted and simply contributes no update calls. -/
theorem startup_zone_validation (cfg : Config) (oracle : Nat → CallResponses)
    (z : ZoneConfig) (ip : String) (k : Nat) (hz : z.records = []) :
    (checkZones cfg = .err (.configError "No zones specified") ↔ cfg.zones = []) ∧
    runZoneRecords oracle z ip z.records k = ⟨.ok (), [], [], [], k⟩ := by
  constructor
  · cases hzs : cfg.zones <;> simp [checkZones, hzs]
  · rw [hz, runZoneRecords]

/-- Witness for the amended C4 at the zero-record configuration. -/
theorem startup_zone_validation_witness :
    (checkZones cfgNoRecords = Outcome.err (Error.configError "No zones specified") ↔
      cfgNoRecords.zones = []) ∧
    runZoneRecords oracleOne (⟨"z1", "zoneA", []⟩ : ZoneConfig) "1.2.3.4"
      (⟨"z1", "zoneA", []⟩ : ZoneConfig).records 0 = ⟨Outcome.ok (), [], [], [], 0⟩ :=
  startup_zone_validation cfgNoRecords oracleOne ⟨"z1", "zoneA", []⟩ "1.2.3.4" 0 rfl

/-- Claim C5: under a successful envelope, `get_dns_record_id` returns the id
of the first entry whose name equals the requested name exactly, and a
`NotFound` error when no entry matches. -/
theorem record_lookup_first_exact_match (body : CloudflareResponse) (name : String)
    (hs : body.success = true) :
    ((∀ info ∈ body.result, info.name ≠ name) →
      get_dns_record_id (.parsed body) name = .err (.notFound name)) ∧
    ∀ (l1 l2 : List RecordInfo) (info : RecordInfo),
      body.result = l1 ++ info :: l2 → info.name = name →
      (∀ i ∈ l1, i.name ≠ name) →
      get_dns_record_id (.parsed body) name = .ok info.id := by
  constructor
  · intro hnone
    have hfind : body.result.find? (fun info => info.name == name) = none := by
      rw [List.find?_eq_none]
      intro x hx
      simpa using hnone x hx
    simp [get_dns_record_id, hs, hfind]
  · intro l1 l2 info hres hname hl1
    have hfind : body.result.find? (fun i => i.name == name) = some info := by
      rw [hres]
      exact find_first_match l1 l2 info name hname hl1
    simp [get_dns_record_id, hs, hfind]

/-- Witness for C5 at the spec's lookup scenario: `y.example.com` resolves to
`a2`, `z.example.com` is not found. -/
theorem record_lookup_first_exact_match_witness :
    get_dns_record_id (.parsed listXY) "y.example.com" = Outcome.ok "a2" ∧
    get_dns_record_id (.parsed listXY) "z.example.com" =
      Outcome.err (.notFound "z.example.com") :=
  ⟨(record_lookup_first_exact_match listXY "y.example.com" rfl).2
      [⟨"a1", "x.example.com"⟩] [] ⟨"a2", "y.example.com"⟩ rfl rfl (by decide),
   (record_lookup_first_exact_match listXY "z.example.com" rfl).1 (by decide)⟩

/-- Claim C6: when the list-response envelope has `success := false`, the
record update fails with the provider error carrying the envelope's error
messages, and no PATCH request is issued for that record (the second
component is `none`), whatever the PATCH transport would have answered. -/
theorem envelope_failure_aborts_before_patch (body : CloudflareResponse)
    (pr : PatchResult) (zone_id : String) (r : Record) (ip : String)
    (h : body.success = false) :
    update_record (.parsed body) pr zone_id r ip =
      (.err (.providerError body.errors), none) := by
  simp [update_record, get_dns_record_id, h]

/-- Witness for C6 at the spec's envelope-failure scenario:
`success: false, errors: ["bad auth"]`. -/
theorem envelope_failure_aborts_before_patch_witness :
    update_record (.parsed ⟨false, ["bad auth"], [], []⟩) (.completed envOk)
        "z1" ⟨"rec1", true⟩ "1.2.3.4" =
      (Outcome.err (Error.providerError ["bad auth"]), none) :=
  envelope_failure_aborts_before_patch ⟨false, ["bad auth"], [], []⟩
    (.completed envOk) "z1" ⟨"rec1", true⟩ "1.2.3.4" rfl

/-- Claim C7: in the waiting state, when the poll resolves to the stored IP,
the step changes nothing but the poll cursor — no update call is issued, the
IP state is unchanged, and the loop remains waiting. -/
theorem unchanged_ip_no_update (cfg : Config) (oracle : Nat → CallResponses)
    (ipo : Nat → IpResponse) (s : RunState) (hm : s.mode = .waiting)
    (h : get_current_ip (ipo s.pollIdx) = .ok s.ip) :
    step cfg oracle ipo s = { s with pollIdx := s.pollIdx + 1 } := by
  obtain ⟨mode, ip, ci, pi, calls, patches, logs, pushed⟩ := s
  dsimp only at hm h
  subst hm
  simp [step, h]

/-- Witness for C7 at a concrete waiting state whose poll returns the stored
IP. -/
theorem unchanged_ip_no_update_witness :
    (runN cfgOne oracleOne ipoSame "1.1.1.1" 1).mode = Mode.waiting ∧
    step cfgOne oracleOne ipoSame (runN cfgOne oracleOne ipoSame "1.1.1.1" 1) =
      { runN cfgOne oracleOne ipoSame "1.1.1.1" 1 with
          pollIdx := (runN cfgOne oracleOne ipoSame "1.1.1.1" 1).pollIdx + 1 } :=
  ⟨rfl, unchanged_ip_no_update cfgOne oracleOne ipoSame _ rfl rfl⟩

/-- Claim C8: within one reconciliation pass, the update calls made are an
initial segment of the configuration-order call list (all records of an
earlier zone before any record of a later one, records of a zone in their
configured order) — all of it when the pass succeeds — and each loop step
only appends to the cumulative call trace, so no call of a later poll
precedes a call of an earlier one. -/
theorem update_call_ordering (cfg : Config) (oracle : Nat → CallResponses)
    (ipo : Nat → IpResponse) (ip : String) (k : Nat) (s : RunState) :
    (∃ rest, configCalls cfg.zones = (runZones oracle ip cfg.zones k).calls ++ rest) ∧
    ((runZones oracle ip cfg.zones k).outcome = .ok () →
      (runZones oracle ip cfg.zones k).calls = configCalls cfg.zones) ∧
    ∃ more, (step cfg oracle ipo s).calls = s.calls ++ more := by
  obtain ⟨rest, hr, ho⟩ := runZones_calls oracle ip cfg.zones k
  refine ⟨⟨rest, hr⟩, ?_, step_calls_mono cfg oracle ipo s⟩
  intro hok
  rw [hr, ho hok, List.append_nil]

/-- Witness for C8 at the two-zone configuration under an all-successful
oracle: the pass's calls are exactly the configuration-order list. -/
theorem update_call_ordering_witness :
    (runZones oracleAllOk "9.9.9.9" cfgAB.zones 0).calls = configCalls cfgAB.zones :=
  (update_call_ordering cfgAB oracleAllOk ipoChanged "9.9.9.9" 0
    (initState "9.9.9.9")).2.1 rfl

/-- Claim C9: once the record id is resolved, `update_record` succeeds for
every completed PATCH exchange regardless of the response envelope (its
success flag included — the envelope is never inspected), and fails with a
network error exactly when the PATCH transport fails. -/
theorem patch_envelope_ignored (lr : ListResponse) (zone_id : String)
    (r : Record) (ip rid : String)
    (h : get_dns_record_id lr r.name = .ok rid) :
    (∀ env : CloudflareResponse,
      update_record lr (.completed env) zone_id r ip =
        (.ok (), some ⟨zone_id, rid, ⟨ip, r.proxy⟩⟩)) ∧
    ∀ m : String,
      update_record lr (.transportError m) zone_id r ip =
        (.err (.network m), some ⟨zone_id, rid, ⟨ip, r.proxy⟩⟩) := by
  refine ⟨fun env => ?_, fun m => ?_⟩ <;> simp [update_record, h]

/-- Witness for C9: a PATCH whose response envelope reports failure is still
treated as success. -/
theorem patch_envelope_ignored_witness :
    update_record (.parsed ⟨true, [], [], [⟨"id1", "rec1"⟩]⟩)
        (.completed ⟨false, ["patch rejected"], [], []⟩) "z1" ⟨"rec1", false⟩
        "1.2.3.4" =
      (Outcome.ok (), some ⟨"z1", "id1", ⟨"1.2.3.4", false⟩⟩) :=
  (patch_envelope_ignored (.parsed ⟨true, [], [], [⟨"id1", "rec1"⟩]⟩) "z1"
    ⟨"rec1", false⟩ "1.2.3.4" "id1" rfl).1 ⟨false, ["patch rejected"], [], []⟩

/-- Claim C10: `get_current_ip` performs no non-emptiness check — every
successfully fetched body yields `ok` of its whitespace-trimmed text — and an
empty current IP is pushed verbatim as the PATCH content in the next update
pass. -/
theorem current_ip_no_emptiness_check (t : String) (lr : ListResponse)
    (env : CloudflareResponse) (zone_id : String) (r : Record) (rid : String)
    (h : get_dns_record_id lr r.name = .ok rid) :
    get_current_ip (.body t) = .ok (rustTrim t) ∧
    update_record lr (.completed env) zone_id r "" =
      (.ok (), some ⟨zone_id, rid, ⟨"", r.proxy⟩⟩) :=
  ⟨rfl, by simp [update_record, h]⟩

/-- Witness for C10: a whitespace-only body yields `ok ""`, and `""` is then
sent as the PATCH content. -/
theorem current_ip_no_emptiness_check_witness :
    get_current_ip (IpResponse.body " \n") = Outcome.ok "" ∧
    update_record (.parsed ⟨true, [], [], [⟨"id1", "rec1"⟩]⟩) (.completed envOk)
        "z1" ⟨"rec1", false⟩ "" =
      (Outcome.ok (), some ⟨"z1", "id1", ⟨"", false⟩⟩) :=
  current_ip_no_emptiness_check " \n" (.parsed ⟨true, [], [], [⟨"id1", "rec1"⟩]⟩)
    envOk "z1" ⟨"rec1", false⟩ "id1" rfl

end Dyns
